import Mathlib

/-!
Shallow embedding of the FavvoCoaster core (src/favvocoaster) in Lean 4,
restricted to the parts the verified claims touch: the domain model
(models.py), the scraping rule engine (rules.py), the liked-songs watcher
(watcher.py), the declared scraping configuration (config.py), and the
`add_to_queue` error behaviour of the two backend clients
(spotify_client.py, tidal_client.py).

Python sets of strings are modelled as `Finset String`; Python exceptions
that can escape a call are modelled by `Except String`; a call that the
source wraps in a catch-all handler is modelled as total.  The on-disk
cache file is carried inside the watcher state as `cache_file : Option
CacheData` (`none` = the file does not exist); writing the file replaces
that component wholesale, as json.dump does.
-/

/-- models.py `Artist`: {id, name, uri}. -/
structure Artist where
  id : String
  name : String
  uri : String
deriving DecidableEq

/-- models.py `Track`: {id, name, uri, artists}.  `added_at` is omitted:
no claim and no modelled code path reads it. -/
structure Track where
  id : String
  name : String
  uri : String
  artists : List Artist
deriving DecidableEq

/-- models.py `Track.artist_ids`: the set of artist ids of the track. -/
def Track.artist_ids (t : Track) : Finset String :=
  (t.artists.map Artist.id).toFinset

/-- models.py `ScrapeContext` (the `timestamp` field is omitted: neither
default rule nor any modelled caller reads it). -/
structure ScrapeContext where
  track : Track
  known_artist_ids : Finset String
  user_id : String
deriving DecidableEq

/-- models.py `ScrapeResult`. -/
structure ScrapeResult where
  should_scrape : Bool
  reason : String
  artists_to_scrape : List Artist
deriving DecidableEq

/-- rules.py `ScrapeRule`: a named rule; `evaluate` returns
(passed, reason). -/
structure ScrapeRule where
  name : String
  evaluate : ScrapeContext → Bool × String

/-- rules.py `MinimumArtistsRule` (lines 45-62). -/
def MinimumArtistsRule (min_artists : Int) : ScrapeRule where
  name := "MinimumArtists(>=" ++ toString min_artists ++ ")"
  evaluate := fun context =>
    let artist_count : Int := context.track.artists.length
    if artist_count ≥ min_artists then
      (true, "Track has " ++ toString artist_count ++ " artists (>= " ++
        toString min_artists ++ ")")
    else
      (false, "Track has only " ++ toString artist_count ++
        " artist(s), need >= " ++ toString min_artists)

/-- rules.py `NoKnownArtistsRule` (lines 65-88). -/
def NoKnownArtistsRule (skip_if_any_known : Bool) : ScrapeRule where
  name := "NoKnownArtists"
  evaluate := fun context =>
    if skip_if_any_known = false then
      (true, "Known artist check disabled")
    else
      let known_in_track := context.track.artist_ids ∩ context.known_artist_ids
      if known_in_track = ∅ then
        (true, "No known artists on this track")
      else
        (false, "Already known artist(s): " ++ String.intercalate ", "
          ((context.track.artists.filter
              (fun a => decide (a.id ∈ known_in_track))).map Artist.name))

/-- The for-loop of rules.py `ScrapeRulesEngine.evaluate` (lines 198-207):
the first rule whose evaluation returns passed=false, with its reason;
`none` when every rule passes.  Later rules are never inspected once a
rule has failed. -/
def firstFailingRule : List ScrapeRule → ScrapeContext → Option (String × String)
  | [], _ => none
  | rule :: rest, context =>
    if (rule.evaluate context).1 then firstFailingRule rest context
    else some (rule.name, (rule.evaluate context).2)

/-- rules.py `ScrapeRulesEngine.evaluate` (lines 182-228).  The engine's
rule list is passed explicitly (`self._rules`). -/
def ScrapeRulesEngine.evaluate (rules : List ScrapeRule)
    (context : ScrapeContext) : ScrapeResult :=
  match firstFailingRule rules context with
  | some (n, r) =>
    { should_scrape := false
      reason := "Rule '" ++ n ++ "' failed: " ++ r
      artists_to_scrape := [] }
  | none =>
    if (context.track.artists.filter
        (fun artist => decide (artist.id ∉ context.known_artist_ids))).isEmpty then
      { should_scrape := false
        reason := "All artists already known, none to scrape"
        artists_to_scrape := [] }
    else
      { should_scrape := true
        reason := "All " ++ toString rules.length ++ " rules passed"
        artists_to_scrape := context.track.artists.filter
          (fun artist => decide (artist.id ∉ context.known_artist_ids)) }

/-- config.py `ScrapingSettings` (lines 20-53): exactly the five declared
fields, with their declared defaults. -/
structure ScrapingSettings where
  min_artists : Int := 2
  top_tracks_limit : Int := 1
  skip_known_artists : Bool := true
  poll_interval_seconds : Int := 30
  known_artists_scan_limit : Int := 500
deriving DecidableEq

/-- rules.py `ScrapeRulesEngine._setup_default_rules` (lines 135-143):
the engine's rule list right after construction. -/
def setupDefaultRules (settings : ScrapingSettings) : List ScrapeRule :=
  [MinimumArtistsRule settings.min_artists,
   NoKnownArtistsRule settings.skip_known_artists]

/-- The slice of base_client.py `MusicServiceClient` the watcher uses.
Calls whose concrete implementations can let an exception escape
(`get_recently_liked_songs`, `get_all_liked_songs` via raw API paging in
spotify_client.py, `add_to_queue` in spotify_client.py) are
`Except`-valued; `get_artist_top_tracks` is total because both
implementations (spotify_client.py lines 118-126, tidal_client.py lines
254-260) catch every exception and return the empty list. -/
structure MusicServiceClient where
  user_id : String
  service_name : String
  get_recently_liked_songs : Int → Except String (List Track)
  get_all_liked_songs : Int → Except String (List Track)
  get_artist_top_tracks : String → Int → List Track
  add_to_queue : String → Except String Bool

/-- The JSON snapshot watcher.py `_save_cache` writes (lines 96-102);
`updated_at` is omitted (never read back). -/
structure CacheData where
  user_id : String
  service : String
  known_artist_ids : Finset String
  seen_track_ids : Finset String
deriving DecidableEq

/-- The mutable state of a watcher.py `LikedSongsWatcher`, together with
the content of its on-disk cache file (`none` = file absent).
`_last_poll_time` and `_running` are omitted: no claim reads them. -/
structure WatcherState where
  known_artist_ids : Finset String
  seen_track_ids : Finset String
  cache_file : Option CacheData
deriving DecidableEq

/-- watcher.py `LikedSongsWatcher._save_cache` (lines 93-107): rewrites
the cache file wholesale with the current state. -/
def LikedSongsWatcher.save_cache (client : MusicServiceClient)
    (s : WatcherState) : WatcherState :=
  let data : CacheData :=
    ⟨client.user_id, client.service_name, s.known_artist_ids, s.seen_track_ids⟩
  { s with cache_file := some data }

/-- watcher.py `LikedSongsWatcher._load_cache` (lines 59-91): returns the
possibly updated state and whether the cache was loaded.  A snapshot for
a different user or a different service is rejected before any of its
contents reach the state. -/
def LikedSongsWatcher.load_cache (use_cache : Bool)
    (client : MusicServiceClient) (s : WatcherState) : WatcherState × Bool :=
  if use_cache = false then (s, false)
  else
    match s.cache_file with
    | none => (s, false)
    | some data =>
      if data.user_id ≠ client.user_id then (s, false)
      else if data.service ≠ client.service_name then (s, false)
      else ({ s with known_artist_ids := data.known_artist_ids
                     seen_track_ids := data.seen_track_ids }, true)

/-- The warm-path resync loop of `build_known_artists_index` (watcher.py
lines 127-132): folds the recent tracks into the state, counting how many
were new. -/
def syncRecentTracks : WatcherState → List Track → WatcherState × Nat
  | s, [] => (s, 0)
  | s, t :: ts =>
    if t.id ∈ s.seen_track_ids then syncRecentTracks s ts
    else
      let s2 : WatcherState :=
        { s with seen_track_ids := insert t.id s.seen_track_ids
                 known_artist_ids := s.known_artist_ids ∪ t.artist_ids }
      match syncRecentTracks s2 ts with
      | (s3, n) => (s3, n + 1)

/-- The cold path of `build_known_artists_index` (watcher.py lines
138-162): scans up to `known_artists_scan_limit` liked songs, replaces
`known_artist_ids` by their artists, extends `seen_track_ids` with their
ids, and saves the cache. -/
def coldRebuild (client : MusicServiceClient) (scan_limit : Int)
    (s : WatcherState) : Except String (WatcherState × Finset String) :=
  match client.get_all_liked_songs scan_limit with
  | .error e => .error e
  | .ok liked_songs =>
    let known_artists := liked_songs.foldl (fun ks t => ks ∪ t.artist_ids) ∅
    let seen := liked_songs.foldl (fun sn t => insert t.id sn) s.seen_track_ids
    let s2 := LikedSongsWatcher.save_cache client
      { s with known_artist_ids := known_artists, seen_track_ids := seen }
    .ok (s2, known_artists)

/-- watcher.py `LikedSongsWatcher.build_known_artists_index` (lines
109-162). -/
def LikedSongsWatcher.build_known_artists_index (client : MusicServiceClient)
    (use_cache : Bool) (scan_limit : Int) (s : WatcherState) :
    Except String (WatcherState × Finset String) :=
  match LikedSongsWatcher.load_cache use_cache client s with
  | (s1, true) =>
    match client.get_recently_liked_songs 50 with
    | .error e => .error e
    | .ok recent =>
      match syncRecentTracks s1 recent with
      | (s2, synced_count) =>
        let s3 := if synced_count > 0 then LikedSongsWatcher.save_cache client s2
                  else s2
        .ok (s3, s3.known_artist_ids)
  | (s1, false) => coldRebuild client scan_limit s1

/-- watcher.py `LikedSongsWatcher.check_for_new_likes` (lines 164-188):
fetches the 20 most recent liked tracks and keeps those not yet seen.
The method assigns no attribute, so the state is returned unchanged. -/
def LikedSongsWatcher.check_for_new_likes (client : MusicServiceClient)
    (s : WatcherState) : Except String (WatcherState × List Track) :=
  match client.get_recently_liked_songs 20 with
  | .error e => .error e
  | .ok recent_tracks =>
    .ok (s, recent_tracks.filter (fun t => decide (t.id ∉ s.seen_track_ids)))

/-- The inner candidate loop of `process_new_track` (watcher.py lines
230-245): walks one artist's top tracks, skipping the triggering track
and already-seen tracks, queueing the rest; a queue call that raises
(spotify_client.py can) aborts the whole call. -/
def queueCandidates (client : MusicServiceClient) (seen : Finset String)
    (liked_id : String) : List Track → Except String (List Track)
  | [] => .ok []
  | top_track :: rest =>
    if top_track.id = liked_id then queueCandidates client seen liked_id rest
    else if top_track.id ∈ seen then queueCandidates client seen liked_id rest
    else
      match client.add_to_queue top_track.uri with
      | .error e => .error e
      | .ok true =>
        match queueCandidates client seen liked_id rest with
        | .error e => .error e
        | .ok q => .ok (top_track :: q)
      | .ok false => queueCandidates client seen liked_id rest

/-- The outer artist loop of `process_new_track` (watcher.py lines
224-245). -/
def queueForArtists (client : MusicServiceClient) (top_tracks_limit : Int)
    (seen : Finset String) (liked_id : String) :
    List Artist → Except String (List Track)
  | [] => .ok []
  | artist :: rest =>
    match queueCandidates client seen liked_id
        (client.get_artist_top_tracks artist.id top_tracks_limit) with
    | .error e => .error e
    | .ok q1 =>
      match queueForArtists client top_tracks_limit seen liked_id rest with
      | .error e => .error e
      | .ok q2 => .ok (q1 ++ q2)

/-- watcher.py `LikedSongsWatcher.process_new_track` (lines 190-258).
The engine's rule list is the `rules` argument.  On reject the state is
updated but the cache is not saved (lines 211-216); on accept the cache
is saved after the updates (lines 247-252).  The optional
`on_scrape_triggered` callback is omitted: the program's own entry points
construct the watcher without one. -/
def LikedSongsWatcher.process_new_track (client : MusicServiceClient)
    (rules : List ScrapeRule) (top_tracks_limit : Int) (s : WatcherState)
    (track : Track) : Except String (WatcherState × List Track) :=
  let context : ScrapeContext :=
    { track := track, known_artist_ids := s.known_artist_ids
      user_id := client.user_id }
  let result := ScrapeRulesEngine.evaluate rules context
  if result.should_scrape = false then
    .ok ({ s with seen_track_ids := insert track.id s.seen_track_ids
                  known_artist_ids := s.known_artist_ids ∪ track.artist_ids }, [])
  else
    match queueForArtists client top_tracks_limit s.seen_track_ids track.id
        result.artists_to_scrape with
    | .error e => .error e
    | .ok queued_tracks =>
      .ok (LikedSongsWatcher.save_cache client
        { s with seen_track_ids := insert track.id s.seen_track_ids
                 known_artist_ids := s.known_artist_ids ∪ track.artist_ids },
        queued_tracks)

/-- The per-track loop of `run_once` (watcher.py lines 277-279) together
with the surrounding `except` (lines 281-282): an exception inside
`process_new_track` ends the poll with whatever was accumulated so far;
the state keeps the mutations of the completed iterations only, because
`process_new_track` mutates the state after its last fallible call. -/
def runOnceLoop (client : MusicServiceClient) (rules : List ScrapeRule)
    (top_tracks_limit : Int) :
    WatcherState → List Track → List Track → WatcherState × List Track
  | s, [], all_queued => (s, all_queued)
  | s, track :: rest, all_queued =>
    match LikedSongsWatcher.process_new_track client rules top_tracks_limit
        s track with
    | .error _ => (s, all_queued)
    | .ok (s2, queued) =>
      runOnceLoop client rules top_tracks_limit s2 rest (all_queued ++ queued)

/-- watcher.py `LikedSongsWatcher.run_once` (lines 260-284): the whole
body sits in a try/except, so the call always returns; a failing fetch
yields the empty result, a failure while processing yields the
accumulation so far. -/
def LikedSongsWatcher.run_once (client : MusicServiceClient)
    (rules : List ScrapeRule) (top_tracks_limit : Int) (s : WatcherState) :
    WatcherState × List Track :=
  match LikedSongsWatcher.check_for_new_likes client s with
  | .error _ => (s, [])
  | .ok (s1, new_tracks) =>
    runOnceLoop client rules top_tracks_limit s1 new_tracks []

/-- The reference sequential processing of a list of new tracks: the
states and queued lists `run_once` accumulates, expressed as one fold
that stops at the first failure. -/
def processSeq (client : MusicServiceClient) (rules : List ScrapeRule)
    (top_tracks_limit : Int) :
    WatcherState → List Track → Except String (WatcherState × List Track)
  | s, [] => .ok (s, [])
  | s, track :: rest =>
    match LikedSongsWatcher.process_new_track client rules top_tracks_limit
        s track with
    | .error e => .error e
    | .ok (s1, q) =>
      match processSeq client rules top_tracks_limit s1 rest with
      | .error e => .error e
      | .ok (s2, q2) => .ok (s2, q ++ q2)

deriving instance DecidableEq for Except

/-- What the underlying spotipy call inside spotify_client.py
`SpotifyClient.add_to_queue` (lines 128-149) can do: succeed, raise a
`spotipy.SpotifyException` carrying an HTTP status, or raise any other
exception (e.g. a network error from the transport). -/
inductive SpotifyQueueCall
  | success
  | spotifyException (http_status : Int)
  | otherException (message : String)
deriving DecidableEq

/-- spotify_client.py `SpotifyClient.add_to_queue` (lines 128-149): only
`spotipy.SpotifyException` is caught (404 and every other status alike
log and return False); any other exception propagates to the caller. -/
def SpotifyClient.add_to_queue : SpotifyQueueCall → Except String Bool
  | .success => .ok true
  | .spotifyException _ => .ok false
  | .otherException message => .error message

/-- What the body of tidal_client.py `TidalClient.add_to_queue` (lines
262-304) can run into: success, no active playback, an `AttributeError`
from the queue API, or any other exception. -/
inductive TidalQueueCall
  | success
  | noActivePlayback
  | attributeError
  | otherException (message : String)
deriving DecidableEq

/-- tidal_client.py `TidalClient.add_to_queue` (lines 262-304): every
failure path is caught (`except AttributeError` and a final
`except Exception`) and returns False. -/
def TidalClient.add_to_queue : TidalQueueCall → Except String Bool
  | .success => .ok true
  | .noActivePlayback => .ok false
  | .attributeError => .ok false
  | .otherException _ => .ok false

/-- A value a configuration attribute can hold. -/
inductive ConfigValue
  | intVal : Int → ConfigValue
  | boolVal : Bool → ConfigValue
  | strVal : String → ConfigValue
deriving DecidableEq

/-- Attribute access on a config.py `ScrapingSettings` instance (lines
20-53): exactly the five declared fields resolve; any other attribute
name raises `AttributeError`, modelled as `none`. -/
def ScrapingSettings.getattr (s : ScrapingSettings) (attr : String) :
    Option ConfigValue :=
  if attr = "min_artists" then some (.intVal s.min_artists)
  else if attr = "top_tracks_limit" then some (.intVal s.top_tracks_limit)
  else if attr = "skip_known_artists" then some (.boolVal s.skip_known_artists)
  else if attr = "poll_interval_seconds" then
    some (.intVal s.poll_interval_seconds)
  else if attr = "known_artists_scan_limit" then
    some (.intVal s.known_artists_scan_limit)
  else none

/-- watcher.py `LikedSongsWatcher.__init__` (lines 26-51) as far as it
touches the settings object: it reads `settings.cache_file` (line 50) and
`settings.use_cache` (line 51); construction succeeds only if both
attribute reads do. -/
def LikedSongsWatcher.initFromSettings (settings : ScrapingSettings) :
    Option (ConfigValue × ConfigValue) :=
  match settings.getattr "cache_file" with
  | none => none
  | some cf =>
    match settings.getattr "use_cache" with
    | none => none
    | some uc => some (cf, uc)

/-! Concrete fixtures used by counterexamples and witnesses. -/

def artistX : Artist := { id := "aX", name := "X", uri := "uX" }

def artistY : Artist := { id := "aY", name := "Y", uri := "uY" }

/-- A collaboration track by two unknown artists. -/
def trackXY : Track :=
  { id := "t1", name := "Collab", uri := "ut1", artists := [artistX, artistY] }

/-- A single-artist track. -/
def trackSolo : Track :=
  { id := "t2", name := "Solo", uri := "ut2", artists := [artistX] }

/-- A fresh watcher state: nothing known, nothing seen, no cache file. -/
def emptyState : WatcherState :=
  { known_artist_ids := ∅, seen_track_ids := ∅, cache_file := none }

/-- A client whose remote calls all succeed trivially. -/
def stubClient : MusicServiceClient :=
  { user_id := "u1"
    service_name := "Spotify"
    get_recently_liked_songs := fun _ => .ok []
    get_all_liked_songs := fun _ => .ok []
    get_artist_top_tracks := fun _ _ => []
    add_to_queue := fun _ => .ok true }

/-- A client whose recent-likes fetch raises. -/
def failingFetchClient : MusicServiceClient :=
  { stubClient with get_recently_liked_songs := fun _ => .error "boom" }

/-- The state after `process_new_track stubClient (setupDefaultRules {})`
accepts `trackXY` starting from `emptyState`. -/
def stateAfterXY : WatcherState :=
  { known_artist_ids := {"aX", "aY"}
    seen_track_ids := {"t1"}
    cache_file := some ⟨"u1", "Spotify", {"aX", "aY"}, {"t1"}⟩ }

/-- Fixture: a rule-evaluation context for `trackXY` with nothing known. -/
def ctxXY : ScrapeContext :=
  { track := trackXY, known_artist_ids := ∅, user_id := "u1" }

/-- Fixture: a cache snapshot left by a different user. -/
def staleCache : CacheData :=
  { user_id := "u2", service := "Spotify"
    known_artist_ids := {"zz"}, seen_track_ids := {"zt"} }

/-- Fixture: the state after `process_new_track` rejects `trackSolo`
starting from `emptyState` (single artist with default rules). -/
def rejectedState : WatcherState :=
  { known_artist_ids := {"aX"}, seen_track_ids := {"t2"}, cache_file := none }

/-! Helper lemmas about the rule engine. -/

/-- When every rule passes, the engine's loop reports no failure. -/
theorem firstFailingRule_all_pass (rules : List ScrapeRule)
    (context : ScrapeContext)
    (hpass : ∀ rule ∈ rules, (rule.evaluate context).1 = true) :
    firstFailingRule rules context = none := by
  induction rules with
  | nil => rfl
  | cons r rs ih =>
    have hr := hpass r (List.mem_cons_self r rs)
    simp only [firstFailingRule, hr, if_true]
    exact ih (fun rule hm => hpass rule (List.mem_cons_of_mem r hm))

/-- The engine's loop stops at the first failing rule, whatever follows. -/
theorem firstFailingRule_first_fail (context : ScrapeContext) (r : ScrapeRule)
    (hfail : (r.evaluate context).1 = false) :
    ∀ (pre post : List ScrapeRule),
      (∀ rule ∈ pre, (rule.evaluate context).1 = true) →
      firstFailingRule (pre ++ r :: post) context =
        some (r.name, (r.evaluate context).2)
  | [], post, _ => by simp [firstFailingRule, hfail]
  | p :: ps, post, hpre => by
    have hp : (p.evaluate context).1 = true := hpre p (List.mem_cons_self p ps)
    simp only [List.cons_append, firstFailingRule, hp, if_true]
    exact firstFailingRule_first_fail context r hfail ps post
      (fun rule hm => hpre rule (List.mem_cons_of_mem p hm))

/-- A track all of whose artists are known filters down to nothing. -/
theorem filter_unknown_eq_nil_of_subset (track : Track) (known : Finset String)
    (hsub : track.artist_ids ⊆ known) :
    track.artists.filter (fun artist => decide (artist.id ∉ known)) = [] := by
  rw [List.filter_eq_nil_iff]
  intro a ha
  simp only [decide_eq_true_eq, not_not]
  exact hsub (List.mem_toFinset.mpr (List.mem_map_of_mem Artist.id ha))

/-- Whatever the rules say, the engine rejects when no artist of the
track is unknown (either a rule already failed, or the
all-artists-already-known branch fires). -/
theorem evaluate_reject_of_filter_empty (rules : List ScrapeRule)
    (context : ScrapeContext)
    (hempty : context.track.artists.filter
        (fun artist => decide (artist.id ∉ context.known_artist_ids)) = []) :
    (ScrapeRulesEngine.evaluate rules context).should_scrape = false := by
  unfold ScrapeRulesEngine.evaluate
  cases hff : firstFailingRule rules context with
  | some p => obtain ⟨n, r⟩ := p; rfl
  | none => rw [if_pos (List.isEmpty_iff.mpr hempty)]

/-! Helper lemmas about the watcher. -/

/-- Both exits of a successful `process_new_track` update the state the
same way: the track becomes seen and its artists become known. -/
theorem process_new_track_ok_state (client : MusicServiceClient)
    (rules : List ScrapeRule) (top_tracks_limit : Int) (s : WatcherState)
    (track : Track) (s2 : WatcherState) (q : List Track)
    (h : LikedSongsWatcher.process_new_track client rules top_tracks_limit
        s track = .ok (s2, q)) :
    s2.seen_track_ids = insert track.id s.seen_track_ids ∧
    s2.known_artist_ids = s.known_artist_ids ∪ track.artist_ids := by
  simp only [LikedSongsWatcher.process_new_track] at h
  split at h
  · cases h
    exact ⟨rfl, rfl⟩
  · split at h
    · exact Except.noConfusion h
    · cases h
      exact ⟨rfl, rfl⟩

/-- On the accept path, `process_new_track` leaves the cache file equal
to the snapshot of its final state. -/
theorem process_new_track_accept_cache (client : MusicServiceClient)
    (rules : List ScrapeRule) (limit : Int) (s : WatcherState) (track : Track)
    (s2 : WatcherState) (q : List Track)
    (haccept : (ScrapeRulesEngine.evaluate rules
        ⟨track, s.known_artist_ids, client.user_id⟩).should_scrape = true)
    (h : LikedSongsWatcher.process_new_track client rules limit s track =
      .ok (s2, q)) :
    s2.cache_file = some ⟨client.user_id, client.service_name,
      s2.known_artist_ids, s2.seen_track_ids⟩ := by
  simp only [LikedSongsWatcher.process_new_track] at h
  rw [if_neg (by rw [haccept]; simp)] at h
  split at h
  · exact Except.noConfusion h
  · cases h
    rfl

/-- A resync that found nothing new left the state untouched. -/
theorem syncRecentTracks_zero : ∀ (ts : List Track) (s s3 : WatcherState),
    syncRecentTracks s ts = (s3, 0) → s3 = s
  | [], s, s3, h => by
    simp only [syncRecentTracks] at h
    exact (Prod.mk.injEq _ _ _ _ ▸ h).1.symm ▸ rfl
  | t :: ts, s, s3, h => by
    simp only [syncRecentTracks] at h
    split at h
    · exact syncRecentTracks_zero ts s s3 h
    · simp only [Prod.mk.injEq] at h
      omega

/-- What a successful `_load_cache` tells us: the snapshot existed, was
for this user and service, and its two sets became the state. -/
theorem load_cache_true (use_cache : Bool) (client : MusicServiceClient)
    (s s1 : WatcherState)
    (h : LikedSongsWatcher.load_cache use_cache client s = (s1, true)) :
    ∃ data, s.cache_file = some data ∧
      data.user_id = client.user_id ∧ data.service = client.service_name ∧
      s1 = { s with known_artist_ids := data.known_artist_ids
                    seen_track_ids := data.seen_track_ids } := by
  simp only [LikedSongsWatcher.load_cache] at h
  split at h
  · simp at h
  · split at h
    · simp at h
    · rename_i data hdata
      split at h
      · simp at h
      · split at h
        · simp at h
        · rename_i hu hsvc
          simp only [Prod.mk.injEq] at h
          exact ⟨data, hdata, not_not.mp hu, not_not.mp hsvc, h.1.symm⟩

/-- After `build_known_artists_index` returns, the cache file is exactly
the snapshot of the final state (it is rewritten on the cold path and on
a fruitful resync, and already equal to the state otherwise). -/
theorem build_cache_reflects (client : MusicServiceClient) (use_cache : Bool)
    (scan_limit : Int) (s s2 : WatcherState) (ks : Finset String)
    (h : LikedSongsWatcher.build_known_artists_index client use_cache
        scan_limit s = .ok (s2, ks)) :
    s2.cache_file = some ⟨client.user_id, client.service_name,
      s2.known_artist_ids, s2.seen_track_ids⟩ := by
  simp only [LikedSongsWatcher.build_known_artists_index] at h
  split at h
  · rename_i s1 hload
    split at h
    · exact Except.noConfusion h
    · rename_i recent hrecent
      split at h
      · simp only [Except.ok.injEq, Prod.mk.injEq] at h
        rw [← h.1]
        rfl
      · rename_i hn
        simp only [Except.ok.injEq, Prod.mk.injEq] at h
        have hn0 : (syncRecentTracks s1 recent).2 = 0 := Nat.eq_zero_of_not_pos hn
        have hs31 : (syncRecentTracks s1 recent).1 = s1 :=
          syncRecentTracks_zero recent s1 (syncRecentTracks s1 recent).1
            (by rw [← hn0])
        obtain ⟨data, hcache, hu, hsvc, hs1⟩ :=
          load_cache_true use_cache client s s1 hload
        rw [← h.1, hs31, hs1]
        show s.cache_file = some ⟨client.user_id, client.service_name,
          data.known_artist_ids, data.seen_track_ids⟩
        rw [hcache, ← hu, ← hsvc]
  · rename_i s1 hload
    simp only [coldRebuild] at h
    split at h
    · exact Except.noConfusion h
    · simp only [Except.ok.injEq, Prod.mk.injEq] at h
      rw [← h.1]
      rfl

/-- A snapshot for a different user or service makes `_load_cache`
report failure and leave the state untouched. -/
theorem load_cache_mismatch (use_cache : Bool) (client : MusicServiceClient)
    (known seen : Finset String) (data : CacheData)
    (hm : data.user_id ≠ client.user_id ∨ data.service ≠ client.service_name) :
    LikedSongsWatcher.load_cache use_cache client
        ⟨known, seen, some data⟩ = (⟨known, seen, some data⟩, false) := by
  simp only [LikedSongsWatcher.load_cache]
  by_cases hu : use_cache = false
  · rw [if_pos hu]
  · rw [if_neg hu]
    by_cases h1 : data.user_id ≠ client.user_id
    · rw [if_pos h1]
    · rw [if_neg h1]
      rw [if_pos (hm.resolve_left h1)]

/-- `runOnceLoop` on a fully successful batch returns the sequential
fold's state with the accumulated queue appended. -/
theorem runOnceLoop_ok (client : MusicServiceClient) (rules : List ScrapeRule)
    (limit : Int) :
    ∀ (ts : List Track) (s s1 : WatcherState) (q1 acc : List Track),
      processSeq client rules limit s ts = .ok (s1, q1) →
      runOnceLoop client rules limit s ts acc = (s1, acc ++ q1)
  | [], s, s1, q1, acc, h => by
    simp only [processSeq, Except.ok.injEq, Prod.mk.injEq] at h
    simp only [runOnceLoop, h.1, ← h.2, List.append_nil]
  | t :: ts, s, s1, q1, acc, h => by
    simp only [processSeq] at h
    split at h
    · exact Except.noConfusion h
    · rename_i s0 q0 hp
      split at h
      · exact Except.noConfusion h
      · rename_i s2 q2 hps
        simp only [Except.ok.injEq, Prod.mk.injEq] at h
        simp only [runOnceLoop, hp]
        rw [runOnceLoop_ok client rules limit ts s0 s2 q2 (acc ++ q0) hps,
          h.1, ← h.2, List.append_assoc]

/-- `runOnceLoop` on a batch whose processing fails at some track
returns the state and accumulation of the completed prefix. -/
theorem runOnceLoop_error (client : MusicServiceClient)
    (rules : List ScrapeRule) (limit : Int) :
    ∀ (pre : List Track) (t : Track) (post : List Track) (s s1 : WatcherState)
      (q1 acc : List Track) (e : String),
      processSeq client rules limit s pre = .ok (s1, q1) →
      LikedSongsWatcher.process_new_track client rules limit s1 t = .error e →
      runOnceLoop client rules limit s (pre ++ t :: post) acc = (s1, acc ++ q1)
  | [], t, post, s, s1, q1, acc, e, hseq, herr => by
    simp only [processSeq, Except.ok.injEq, Prod.mk.injEq] at hseq
    have herr2 : LikedSongsWatcher.process_new_track client rules limit s t =
        .error e := by rw [hseq.1]; exact herr
    simp only [List.nil_append, runOnceLoop, herr2, ← hseq.1, ← hseq.2,
      List.append_nil]
  | p :: ps, t, post, s, s1, q1, acc, e, hseq, herr => by
    simp only [processSeq] at hseq
    split at hseq
    · exact Except.noConfusion hseq
    · rename_i s0 q0 hp
      split at hseq
      · exact Except.noConfusion hseq
      · rename_i s2 q2 hps
        simp only [Except.ok.injEq, Prod.mk.injEq] at hseq
        simp only [List.cons_append, runOnceLoop, hp, List.append_eq]
        have hps2 : processSeq client rules limit s0 ps = .ok (s1, q2) := by
          rw [← hseq.1]; exact hps
        rw [runOnceLoop_error client rules limit ps t post s0 s1 q2
            (acc ++ q0) e hps2 herr, ← hseq.2, List.append_assoc]

/-! The claims. -/

/-- C1: for every track T and watcher state, when `process_new_track T`
returns, T.id is in `seen_track_ids` and every artist id of T is in
`known_artist_ids`, whatever the rule engine decided; and a later call on
the same track (whose id is seen and whose artists are known) changes
neither set — the artists were added at the first-seen moment only. -/
theorem C1_process_new_track_seen_and_known (client : MusicServiceClient)
    (rules : List ScrapeRule) (limit : Int) (s : WatcherState) (track : Track)
    (s2 : WatcherState) (q : List Track)
    (h : LikedSongsWatcher.process_new_track client rules limit s track =
      .ok (s2, q)) :
    (track.id ∈ s2.seen_track_ids ∧
      ∀ a ∈ track.artists, a.id ∈ s2.known_artist_ids) ∧
    (∀ (client2 : MusicServiceClient) (rules2 : List ScrapeRule) (limit2 : Int)
        (s3 s4 : WatcherState) (q2 : List Track),
      track.id ∈ s3.seen_track_ids → track.artist_ids ⊆ s3.known_artist_ids →
      LikedSongsWatcher.process_new_track client2 rules2 limit2 s3 track =
        .ok (s4, q2) →
      s4.known_artist_ids = s3.known_artist_ids ∧
      s4.seen_track_ids = s3.seen_track_ids) := by
  obtain ⟨hseen, hknown⟩ := process_new_track_ok_state client rules limit
    s track s2 q h
  refine ⟨⟨?_, ?_⟩, ?_⟩
  · rw [hseen]; exact Finset.mem_insert_self _ _
  · intro a ha
    rw [hknown]
    exact Finset.mem_union_right _
      (List.mem_toFinset.mpr (List.mem_map_of_mem Artist.id ha))
  · intro client2 rules2 limit2 s3 s4 q2 hs hk h2
    obtain ⟨h2seen, h2known⟩ :=
      process_new_track_ok_state client2 rules2 limit2 s3 track s4 q2 h2
    exact ⟨by rw [h2known]; exact Finset.union_eq_left.mpr hk,
           by rw [h2seen]; exact Finset.insert_eq_self.mpr hs⟩

/-- C1 witness: a concrete accepted run of `process_new_track`. -/
theorem C1_process_new_track_seen_and_known_witness :
    (trackXY.id ∈ stateAfterXY.seen_track_ids ∧
      ∀ a ∈ trackXY.artists, a.id ∈ stateAfterXY.known_artist_ids) ∧
    (∀ (client2 : MusicServiceClient) (rules2 : List ScrapeRule) (limit2 : Int)
        (s3 s4 : WatcherState) (q2 : List Track),
      trackXY.id ∈ s3.seen_track_ids →
      trackXY.artist_ids ⊆ s3.known_artist_ids →
      LikedSongsWatcher.process_new_track client2 rules2 limit2 s3 trackXY =
        .ok (s4, q2) →
      s4.known_artist_ids = s3.known_artist_ids ∧
      s4.seen_track_ids = s3.seen_track_ids) :=
  C1_process_new_track_seen_and_known stubClient (setupDefaultRules {}) 1
    emptyState trackXY stateAfterXY [] (by decide)

/-- C2: the engine runs rules in insertion order; at the first rule whose
evaluation returns passed=false it answers should_scrape=false with no
artists and reason "Rule '<name>' failed: <reason>" for that rule, and
the rules after the failing one have no influence on the result. -/
theorem C2_evaluate_short_circuits_first_failure
    (pre post : List ScrapeRule) (r : ScrapeRule) (context : ScrapeContext)
    (hpre : ∀ rule ∈ pre, (rule.evaluate context).1 = true)
    (hfail : (r.evaluate context).1 = false) :
    ScrapeRulesEngine.evaluate (pre ++ r :: post) context =
      { should_scrape := false
        reason := "Rule '" ++ r.name ++ "' failed: " ++ (r.evaluate context).2
        artists_to_scrape := [] } ∧
    ∀ post2 : List ScrapeRule,
      ScrapeRulesEngine.evaluate (pre ++ r :: post2) context =
        ScrapeRulesEngine.evaluate (pre ++ r :: post) context := by
  constructor
  · unfold ScrapeRulesEngine.evaluate
    rw [firstFailingRule_first_fail context r hfail pre post hpre]
  · intro post2
    unfold ScrapeRulesEngine.evaluate
    rw [firstFailingRule_first_fail context r hfail pre post hpre,
        firstFailingRule_first_fail context r hfail pre post2 hpre]

/-- C2 witness: a passing rule, then a failing one, then another rule. -/
theorem C2_evaluate_short_circuits_first_failure_witness :
    ScrapeRulesEngine.evaluate
        ([MinimumArtistsRule 1] ++ MinimumArtistsRule 3 ::
          [NoKnownArtistsRule true]) ctxXY =
      { should_scrape := false
        reason := "Rule '" ++ (MinimumArtistsRule 3).name ++ "' failed: " ++
          ((MinimumArtistsRule 3).evaluate ctxXY).2
        artists_to_scrape := [] } ∧
    ∀ post2 : List ScrapeRule,
      ScrapeRulesEngine.evaluate
          ([MinimumArtistsRule 1] ++ MinimumArtistsRule 3 :: post2) ctxXY =
        ScrapeRulesEngine.evaluate
          ([MinimumArtistsRule 1] ++ MinimumArtistsRule 3 ::
            [NoKnownArtistsRule true]) ctxXY :=
  C2_evaluate_short_circuits_first_failure [MinimumArtistsRule 1]
    [NoKnownArtistsRule true] (MinimumArtistsRule 3) ctxXY
    (by decide) (by decide)

/-- C3: when every rule passes, `artists_to_scrape` is exactly the
track's artists, in track order, whose id is not known; if that list is
empty the engine still rejects with the all-artists-already-known
reason, otherwise it accepts. -/
theorem C3_evaluate_all_pass_filters_known
    (rules : List ScrapeRule) (context : ScrapeContext)
    (hpass : ∀ rule ∈ rules, (rule.evaluate context).1 = true) :
    ((ScrapeRulesEngine.evaluate rules context).artists_to_scrape =
        context.track.artists.filter
          (fun artist => decide (artist.id ∉ context.known_artist_ids)) ∧
      ∀ artist,
        artist ∈ (ScrapeRulesEngine.evaluate rules context).artists_to_scrape ↔
          artist ∈ context.track.artists ∧
            artist.id ∉ context.known_artist_ids) ∧
    (context.track.artists.filter
        (fun artist => decide (artist.id ∉ context.known_artist_ids)) = [] →
      ScrapeRulesEngine.evaluate rules context =
        { should_scrape := false
          reason := "All artists already known, none to scrape"
          artists_to_scrape := [] }) ∧
    (context.track.artists.filter
        (fun artist => decide (artist.id ∉ context.known_artist_ids)) ≠ [] →
      (ScrapeRulesEngine.evaluate rules context).should_scrape = true) := by
  have hff := firstFailingRule_all_pass rules context hpass
  have hats : (ScrapeRulesEngine.evaluate rules context).artists_to_scrape =
      context.track.artists.filter
        (fun artist => decide (artist.id ∉ context.known_artist_ids)) := by
    unfold ScrapeRulesEngine.evaluate
    rw [hff]
    by_cases hempty : context.track.artists.filter
        (fun artist => decide (artist.id ∉ context.known_artist_ids)) = []
    · rw [if_pos (List.isEmpty_iff.mpr hempty)]
      exact hempty.symm
    · rw [if_neg (by rw [List.isEmpty_eq_false.mpr hempty]; simp)]
  refine ⟨⟨hats, ?_⟩, ?_, ?_⟩
  · intro artist
    rw [hats, List.mem_filter]
    simp
  · intro hempty
    unfold ScrapeRulesEngine.evaluate
    rw [hff, if_pos (List.isEmpty_iff.mpr hempty)]
  · intro hne
    unfold ScrapeRulesEngine.evaluate
    rw [hff, if_neg (by rw [List.isEmpty_eq_false.mpr hne]; simp)]

/-- C3 witness: the default rules all pass on `trackXY` with nothing
known. -/
theorem C3_evaluate_all_pass_filters_known_witness :
    ((ScrapeRulesEngine.evaluate (setupDefaultRules {}) ctxXY).artists_to_scrape =
        ctxXY.track.artists.filter
          (fun artist => decide (artist.id ∉ ctxXY.known_artist_ids)) ∧
      ∀ artist,
        artist ∈ (ScrapeRulesEngine.evaluate (setupDefaultRules {})
            ctxXY).artists_to_scrape ↔
          artist ∈ ctxXY.track.artists ∧
            artist.id ∉ ctxXY.known_artist_ids) ∧
    (ctxXY.track.artists.filter
        (fun artist => decide (artist.id ∉ ctxXY.known_artist_ids)) = [] →
      ScrapeRulesEngine.evaluate (setupDefaultRules {}) ctxXY =
        { should_scrape := false
          reason := "All artists already known, none to scrape"
          artists_to_scrape := [] }) ∧
    (ctxXY.track.artists.filter
        (fun artist => decide (artist.id ∉ ctxXY.known_artist_ids)) ≠ [] →
      (ScrapeRulesEngine.evaluate (setupDefaultRules {})
        ctxXY).should_scrape = true) :=
  C3_evaluate_all_pass_filters_known (setupDefaultRules {}) ctxXY (by decide)

/-- C4 counterexample: an exception that is not a
`spotipy.SpotifyException` (for instance a transport-level connection
error) escapes `SpotifyClient.add_to_queue` instead of becoming False,
so the claim that `add_to_queue` never raises for both backends is
false. -/
theorem C4_spotify_add_to_queue_raises :
    SpotifyClient.add_to_queue (.otherException "connection reset") =
      .error "connection reset" := rfl

/-- C4 amended: `TidalClient.add_to_queue` returns a boolean and never
raises, whatever the backend call does; `SpotifyClient.add_to_queue`
returns true on success and false (not raised) on any
`spotipy.SpotifyException` — including the 404 no-active-device case —
while an exception of any other class propagates to its caller. -/
theorem C4_add_to_queue_contract :
    (∀ call : TidalQueueCall, ∃ b : Bool,
      TidalClient.add_to_queue call = .ok b) ∧
    SpotifyClient.add_to_queue .success = .ok true ∧
    ∀ status : Int,
      SpotifyClient.add_to_queue (.spotifyException status) = .ok false := by
  refine ⟨?_, rfl, fun _ => rfl⟩
  intro call
  cases call
  · exact ⟨true, rfl⟩
  · exact ⟨false, rfl⟩
  · exact ⟨false, rfl⟩
  · exact ⟨false, rfl⟩

/-- C5: `run_once` is total.  If the fetch of recent likes raises, it
returns the unchanged state with nothing queued; if processing the new
tracks succeeds throughout, it returns the sequential fold's result; if
processing raises at some track, it returns the state and queued tracks
accumulated across the tracks processed before that one. -/
theorem C5_run_once_never_raises (client : MusicServiceClient)
    (rules : List ScrapeRule) (limit : Int) (s : WatcherState) :
    (∀ e, client.get_recently_liked_songs 20 = .error e →
      LikedSongsWatcher.run_once client rules limit s = (s, [])) ∧
    (∀ recent, client.get_recently_liked_songs 20 = .ok recent →
      (∀ s1 q1, processSeq client rules limit s
          (recent.filter (fun t => decide (t.id ∉ s.seen_track_ids))) =
            .ok (s1, q1) →
        LikedSongsWatcher.run_once client rules limit s = (s1, q1)) ∧
      (∀ pre t post s1 q1 e,
        recent.filter (fun t => decide (t.id ∉ s.seen_track_ids)) =
          pre ++ t :: post →
        processSeq client rules limit s pre = .ok (s1, q1) →
        LikedSongsWatcher.process_new_track client rules limit s1 t =
          .error e →
        LikedSongsWatcher.run_once client rules limit s = (s1, q1))) := by
  constructor
  · intro e he
    simp only [LikedSongsWatcher.run_once,
      LikedSongsWatcher.check_for_new_likes, he]
  · intro recent hrec
    constructor
    · intro s1 q1 hseq
      simp only [LikedSongsWatcher.run_once,
        LikedSongsWatcher.check_for_new_likes, hrec]
      rw [runOnceLoop_ok client rules limit _ s s1 q1 [] hseq,
        List.nil_append]
    · intro pre t post s1 q1 e hsplit hseq herr
      simp only [LikedSongsWatcher.run_once,
        LikedSongsWatcher.check_for_new_likes, hrec, hsplit]
      rw [runOnceLoop_error client rules limit pre t post s s1 q1 [] e hseq
        herr, List.nil_append]

/-- C5 witness: a poll whose recent-likes fetch raises returns the
unchanged state and an empty queued list. -/
theorem C5_run_once_never_raises_witness :
    LikedSongsWatcher.run_once failingFetchClient (setupDefaultRules {}) 1
      emptyState = (emptyState, []) :=
  (C5_run_once_never_raises failingFetchClient (setupDefaultRules {}) 1
    emptyState).1 "boom" rfl

/-- C6: with the default rule set, a second `process_new_track` on the
same track succeeds, leaves the state of the first call unchanged
(including `known_artist_ids` and `seen_track_ids`), queues nothing and
returns the empty list. -/
theorem C6_process_new_track_idempotent (client : MusicServiceClient)
    (settings : ScrapingSettings) (limit : Int) (s : WatcherState)
    (track : Track) (s1 : WatcherState) (q1 : List Track)
    (h : LikedSongsWatcher.process_new_track client
        (setupDefaultRules settings) limit s track = .ok (s1, q1)) :
    LikedSongsWatcher.process_new_track client (setupDefaultRules settings)
      limit s1 track = .ok (s1, []) := by
  obtain ⟨hseen, hknown⟩ := process_new_track_ok_state client
    (setupDefaultRules settings) limit s track s1 q1 h
  have hsub : track.artist_ids ⊆ s1.known_artist_ids := by
    rw [hknown]; exact Finset.subset_union_right
  have hrej : (ScrapeRulesEngine.evaluate (setupDefaultRules settings)
      ⟨track, s1.known_artist_ids, client.user_id⟩).should_scrape = false :=
    evaluate_reject_of_filter_empty _ _
      (filter_unknown_eq_nil_of_subset track s1.known_artist_ids hsub)
  have hins : insert track.id s1.seen_track_ids = s1.seen_track_ids :=
    Finset.insert_eq_self.mpr (by rw [hseen]; exact Finset.mem_insert_self _ _)
  have huni : s1.known_artist_ids ∪ track.artist_ids = s1.known_artist_ids :=
    Finset.union_eq_left.mpr hsub
  simp only [LikedSongsWatcher.process_new_track]
  rw [if_pos hrej, hins, huni]

/-- C6 witness: processing `trackXY` twice from a fresh state. -/
theorem C6_process_new_track_idempotent_witness :
    LikedSongsWatcher.process_new_track stubClient (setupDefaultRules {}) 1
      stateAfterXY trackXY = .ok (stateAfterXY, []) :=
  C6_process_new_track_idempotent stubClient {} 1 emptyState trackXY
    stateAfterXY [] (by decide)

/-- C7 counterexample: a rejected track (here a single-artist track
under the default rules) is marked seen and its artist becomes known —
the state changes — yet `process_new_track` returns with the cache file
exactly as it was (absent), not rewritten to the new state. -/
theorem C7_reject_path_skips_cache_save :
    LikedSongsWatcher.process_new_track stubClient (setupDefaultRules {}) 1
        emptyState trackSolo = .ok (rejectedState, []) ∧
    rejectedState.seen_track_ids ≠ emptyState.seen_track_ids ∧
    rejectedState.cache_file = emptyState.cache_file := by decide

/-- C7 amended: after `build_known_artists_index` returns, and after
every `process_new_track` call in which the rule engine accepted the
track, the cache file holds exactly the wholesale snapshot of the new
state; the reject path of `process_new_track` updates
`known_artist_ids`/`seen_track_ids` but returns without rewriting the
cache file. -/
theorem C7_cache_saved_on_accept_and_build :
    (∀ (client : MusicServiceClient) (rules : List ScrapeRule) (limit : Int)
        (s : WatcherState) (track : Track) (s2 : WatcherState)
        (q : List Track),
      (ScrapeRulesEngine.evaluate rules
          ⟨track, s.known_artist_ids, client.user_id⟩).should_scrape = true →
      LikedSongsWatcher.process_new_track client rules limit s track =
        .ok (s2, q) →
      s2.cache_file = some ⟨client.user_id, client.service_name,
        s2.known_artist_ids, s2.seen_track_ids⟩) ∧
    (∀ (client : MusicServiceClient) (use_cache : Bool) (scan_limit : Int)
        (s s2 : WatcherState) (ks : Finset String),
      LikedSongsWatcher.build_known_artists_index client use_cache scan_limit
        s = .ok (s2, ks) →
      s2.cache_file = some ⟨client.user_id, client.service_name,
        s2.known_artist_ids, s2.seen_track_ids⟩) :=
  ⟨fun client rules limit s track s2 q haccept h =>
    process_new_track_accept_cache client rules limit s track s2 q haccept h,
   fun client use_cache scan_limit s s2 ks h =>
    build_cache_reflects client use_cache scan_limit s s2 ks h⟩

/-- C7 amended witness: a concrete accepted run and a concrete cold
rebuild, both ending with the cache equal to the final state. -/
theorem C7_cache_saved_on_accept_and_build_witness :
    stateAfterXY.cache_file = some ⟨stubClient.user_id,
      stubClient.service_name, stateAfterXY.known_artist_ids,
      stateAfterXY.seen_track_ids⟩ ∧
    (LikedSongsWatcher.save_cache stubClient emptyState).cache_file =
      some ⟨stubClient.user_id, stubClient.service_name,
        (LikedSongsWatcher.save_cache stubClient emptyState).known_artist_ids,
        (LikedSongsWatcher.save_cache stubClient emptyState).seen_track_ids⟩ :=
  ⟨C7_cache_saved_on_accept_and_build.1 stubClient (setupDefaultRules {}) 1
      emptyState trackXY stateAfterXY [] (by decide) (by decide),
   C7_cache_saved_on_accept_and_build.2 stubClient false 500 emptyState
      (LikedSongsWatcher.save_cache stubClient emptyState) ∅ (by decide)⟩

/-- C8: config.py's `ScrapingSettings` declares neither `cache_file` nor
`use_cache`, yet watcher.py's `__init__` reads both, so constructing a
`LikedSongsWatcher` from any `ScrapingSettings` built from its declared
fields fails with `AttributeError` on the very first of those reads. -/
theorem C8_settings_lack_cache_fields :
    LikedSongsWatcher.initFromSettings {} = none ∧
    ∀ settings : ScrapingSettings,
      LikedSongsWatcher.initFromSettings settings = none :=
  ⟨rfl, fun _ => rfl⟩

/-- C9: a cache snapshot whose user or service differs from the current
client makes `build_known_artists_index` perform the full cold rebuild,
and its result is identical to running with no cache file at all — no
artist id or track id of the snapshot enters the result. -/
theorem C9_mismatched_cache_cold_rebuild (client : MusicServiceClient)
    (use_cache : Bool) (scan_limit : Int) (known seen : Finset String)
    (data : CacheData)
    (hm : data.user_id ≠ client.user_id ∨
      data.service ≠ client.service_name) :
    LikedSongsWatcher.build_known_artists_index client use_cache scan_limit
        ⟨known, seen, some data⟩ =
      coldRebuild client scan_limit ⟨known, seen, some data⟩ ∧
    LikedSongsWatcher.build_known_artists_index client use_cache scan_limit
        ⟨known, seen, some data⟩ =
      LikedSongsWatcher.build_known_artists_index client use_cache scan_limit
        ⟨known, seen, none⟩ := by
  have hnone : LikedSongsWatcher.load_cache use_cache client
      ⟨known, seen, none⟩ = (⟨known, seen, none⟩, false) := by
    simp only [LikedSongsWatcher.load_cache]
    by_cases hu : use_cache = false
    · rw [if_pos hu]
    · rw [if_neg hu]
  have h1 : LikedSongsWatcher.build_known_artists_index client use_cache
      scan_limit ⟨known, seen, some data⟩ =
      coldRebuild client scan_limit ⟨known, seen, some data⟩ := by
    simp only [LikedSongsWatcher.build_known_artists_index,
      load_cache_mismatch use_cache client known seen data hm]
  refine ⟨h1, ?_⟩
  rw [h1]
  simp only [LikedSongsWatcher.build_known_artists_index, hnone]
  simp only [coldRebuild]
  cases client.get_all_liked_songs scan_limit with
  | error e => rfl
  | ok liked => rfl

/-- C9 witness: a snapshot left by user "u2" while the client is "u1". -/
theorem C9_mismatched_cache_cold_rebuild_witness :
    LikedSongsWatcher.build_known_artists_index stubClient true 500
        ⟨∅, ∅, some staleCache⟩ =
      coldRebuild stubClient 500 ⟨∅, ∅, some staleCache⟩ ∧
    LikedSongsWatcher.build_known_artists_index stubClient true 500
        ⟨∅, ∅, some staleCache⟩ =
      LikedSongsWatcher.build_known_artists_index stubClient true 500
        ⟨∅, ∅, none⟩ :=
  C9_mismatched_cache_cold_rebuild stubClient true 500 ∅ ∅ staleCache
    (Or.inl (by decide))

/-- C10: `check_for_new_likes` asks the client for the 20 most recent
liked tracks and returns exactly those whose id is not in
`seen_track_ids`, in the order the client returned them, with the
watcher state unchanged; a failing fetch propagates. -/
theorem C10_check_for_new_likes_pure_diff (client : MusicServiceClient)
    (s : WatcherState) :
    (∀ recent, client.get_recently_liked_songs 20 = .ok recent →
      ∃ result, LikedSongsWatcher.check_for_new_likes client s =
          .ok (s, result) ∧
        result.Sublist recent ∧
        ∀ t, t ∈ result ↔ t ∈ recent ∧ t.id ∉ s.seen_track_ids) ∧
    (∀ e, client.get_recently_liked_songs 20 = .error e →
      LikedSongsWatcher.check_for_new_likes client s = .error e) := by
  constructor
  · intro recent hrec
    refine ⟨recent.filter (fun t => decide (t.id ∉ s.seen_track_ids)),
      ?_, List.filter_sublist recent, ?_⟩
    · simp only [LikedSongsWatcher.check_for_new_likes, hrec]
    · intro t
      rw [List.mem_filter]
      simp
  · intro e he
    simp only [LikedSongsWatcher.check_for_new_likes, he]

/-- C10 witness: a concrete fetch returning the empty page. -/
theorem C10_check_for_new_likes_pure_diff_witness :
    ∃ result, LikedSongsWatcher.check_for_new_likes stubClient emptyState =
        .ok (emptyState, result) ∧
      result.Sublist [] ∧
      ∀ t, t ∈ result ↔ t ∈ ([] : List Track) ∧
        t.id ∉ emptyState.seen_track_ids :=
  (C10_check_for_new_likes_pure_diff stubClient emptyState).1 [] rfl
